import Mathlib

/-!
# Verification of the CRM lead-suggestion / follow-up-scheduling core

A shallow embedding of the decision logic of `main.py` (and the agenda /
activities routers) of the CRM repository:

* `rebuild_top20` / `rebuild_top20_caen` — the lead ranker,
* `take_next_suggestions` / `mark_suggestions_used` — consumption of the
  candidate list,
* `create_or_update_activity` — activity creation and follow-up scheduling
  driven by the `reprogram_options` table,
* `api_agenda` (main.py) and `get_agenda` (agenda.py) — the agenda view and
  its date validation.

Database tables are modelled as Lean lists of records; SQL `ORDER BY` is
modelled by the stable `List.mergeSort`, `LIMIT` by `List.take`, `WHERE` by
`List.filter`.  Dates are modelled as integers (days since an epoch) and
timestamps as integers.  Numeric columns (`cifra_afaceri`, license counts)
are modelled as `Int`; the SQL casts `COALESCE(NULLIF(trim(x),''),'0')::t`
are absorbed into that choice.  Presentation-only fields (the regex cleanup
of `denumire`) carry no claim content and are kept as the raw name.
-/

namespace CRM

/-! ## Python-style helpers

`x or y` on Python ints/strings skips falsy values (`None`, `0`, `""`). -/

/-- Python truthiness filter for an optional int: `0` is falsy. -/
def pyTruthyInt (o : Option Int) : Option Int :=
  match o with
  | some 0 => none
  | x => x

/-- Python truthiness filter for an optional string: `""` is falsy. -/
def pyTruthyStr (o : Option String) : Option String :=
  match o with
  | some "" => none
  | x => x

/-- ASCII lower-casing of a character list (models SQL `lower(...)` on the
ASCII range, which is all the excluded-region check needs). -/
def lowerCL (l : List Char) : List Char := l.map Char.toLower

/-- `needle` occurs at the head of `hay`. -/
def hasPrefixCL : List Char → List Char → Bool
  | [], _ => true
  | _ :: _, [] => false
  | a :: as, b :: bs => a == b && hasPrefixCL as bs

/-- `needle` occurs somewhere inside `hay` (models SQL `LIKE '%needle%'`). -/
def hasSubstrCL (needle : List Char) : List Char → Bool
  | [] => needle.isEmpty
  | b :: bs => hasPrefixCL needle (b :: bs) || hasSubstrCL needle bs

/-! ## Dates

Calendar dates are days since 1970-01-01 (`Int`).  `parseIsoDate` models
Python's `datetime.fromisoformat(...).date()` on the `YYYY-MM-DD` form (the
only form the clients of this API send; time-suffixed forms are out of the
modelled scope). -/

def isLeapYear (y : Int) : Bool :=
  y % 4 == 0 && (y % 100 != 0 || y % 400 == 0)

def daysInMonth (y m : Int) : Int :=
  if m == 2 then (if isLeapYear y then 29 else 28)
  else if m == 4 || m == 6 || m == 9 || m == 11 then 30
  else 31

/-- Days since 1970-01-01 of the civil date `y-m-d` (Hinnant's
`days_from_civil`; the divisions are applied to non-negative operands, where
truncating and flooring division agree). -/
def toEpochDays (y m d : Int) : Int :=
  let y' := y - (if m <= 2 then 1 else 0)
  let era := (if y' >= 0 then y' else y' - 399) / 400
  let yoe := y' - era * 400
  let doy := (153 * (m + (if m > 2 then -3 else 9)) + 2) / 5 + d - 1
  let doe := yoe * 365 + yoe / 4 - yoe / 100 + doy
  era * 146097 + doe - 719468

def digitVal (c : Char) : Option Nat :=
  if '0' ≤ c ∧ c ≤ '9' then some (c.toNat - '0'.toNat) else none

def parseDigitsCL : List Char → Option Nat
  | [] => none
  | l => l.foldl (fun acc c => do return (← acc) * 10 + (← digitVal c)) (some 0)

/-- Split a character list on `'-'` (models `s.split("-")` /
`String.splitOn s "-"`). -/
def splitOnDashCL : List Char → List (List Char)
  | [] => [[]]
  | c :: t =>
    if c == '-' then [] :: splitOnDashCL t
    else
      match splitOnDashCL t with
      | [] => [[c]]
      | h :: r => (c :: h) :: r

/-- Parse `"YYYY-MM-DD"` into epoch days; `none` on anything unparseable
(models `datetime.fromisoformat(s).date()` raising `ValueError`). -/
def parseIsoDate (s : String) : Option Int :=
  match splitOnDashCL s.data with
  | [ys, ms, ds] =>
    if ys.length == 4 && ms.length == 2 && ds.length == 2 then
      match parseDigitsCL ys, parseDigitsCL ms, parseDigitsCL ds with
      | some y, some m, some d =>
        if 1 ≤ m ∧ m ≤ 12 ∧ 1 ≤ d ∧ (d : Int) ≤ daysInMonth y m then
          some (toEpochDays y m d)
        else none
      | _, _, _ => none
    else none
  | _ => none

/-! ## Data model

The tables created by `startup_check_db` / `ensure_suggested_and_reprogram_tables`
in `main.py`, restricted to the columns the modelled queries touch. -/

/-- A row of `public.firms` (columns used by the ranker queries). -/
structure Firm where
  cui : String
  denumire : String
  judet : Option String
  /-- the detected `cifra…` revenue column, after the `::numeric` cast -/
  cifra : Int
  caen : String
  deriving DecidableEq

/-- A row of `public.licente` after the per-`cui` value cast to int. -/
structure LicRow where
  cui : String
  cnt : Int
  deriving DecidableEq

/-- A row of `public.activities`. -/
structure ActivityRow where
  id : Nat
  cui : String
  activityTypeId : Option Int
  comment : String
  score : Option Int
  reprogramId : Option Int
  reprogramLabel : Option String
  reprogramDays : Option Int
  /-- `scheduled_date`, as epoch days -/
  scheduledDate : Option Int
  completed : Bool
  /-- `created_at`, as an integer timestamp -/
  createdAt : Int
  deriving DecidableEq

/-- A row of `public.suggested_top` (fields the claims quantify over;
`denumire` is display-only cleanup and is carried as the raw name). -/
structure SuggestionRow where
  rank : Nat
  cui : String
  denumire : String
  licente : Int
  cifra : Int
  used : Bool
  deriving DecidableEq

/-- A row of `public.suggested_by_caen`. -/
structure CaenRow where
  rank : Nat
  cui : String
  denumire : String
  caen : Option String
  cifra : Int
  licente : Int
  deriving DecidableEq

/-- A row of `public.reprogram_options`. -/
structure ReprogramOption where
  id : Int
  label : String
  days : Option Int
  deriving DecidableEq

/-- The database state visible to the modelled endpoints. -/
structure DB where
  firms : List Firm
  licente : List LicRow
  activities : List ActivityRow
  suggestedTop : List SuggestionRow
  suggestedByCaen : List CaenRow
  reprogramOptions : List ReprogramOption
  relevantCaen : List String
  nextActivityId : Nat
  deriving DecidableEq

/-- The `reprogram_options` rows inserted by
`ensure_suggested_and_reprogram_tables` when the table is empty; the serial
primary key numbers them 1…20 in insertion order. -/
def defaultReprogramOptions : List ReprogramOption :=
  [⟨1, "1 zi", some 1⟩, ⟨2, "2 zile", some 2⟩, ⟨3, "3 zile", some 3⟩,
   ⟨4, "4 zile", some 4⟩, ⟨5, "5 zile", some 5⟩, ⟨6, "1 saptamana", some 7⟩,
   ⟨7, "2 saptamani", some 14⟩, ⟨8, "3 saptamani", some 21⟩,
   ⟨9, "1 luna", some 30⟩, ⟨10, "2 luni", some 60⟩, ⟨11, "3 luni", some 90⟩,
   ⟨12, "6 luni", some 180⟩, ⟨13, "9 luni", some 270⟩, ⟨14, "1 an", some 365⟩,
   ⟨15, "1 an si jumatate", some 548⟩, ⟨16, "2 ani", some 730⟩,
   ⟨17, "3 ani", some 1095⟩, ⟨18, "4 ani", some 1460⟩,
   ⟨19, "5 ani", some 1825⟩, ⟨20, "Nu programa", none⟩]

/-- `ensure_suggested_and_reprogram_tables`: creates the tables (a no-op in
the model) and populates `reprogram_options` iff it is empty. -/
def ensureTables (db : DB) : DB :=
  { db with reprogramOptions :=
      if db.reprogramOptions.isEmpty then defaultReprogramOptions
      else db.reprogramOptions }

/-! ## The ranker (`rebuild_top20`) -/

/-- `EXISTS (SELECT 1 FROM public.activities a WHERE a.cui::text = f.cui::text)`. -/
def hasActivity (acts : List ActivityRow) (cui : String) : Bool :=
  acts.any (fun a => a.cui == cui)

/-- `lower(COALESCE(f.judet, '')) LIKE '%constan%'`. -/
def judetExcluded (j : Option String) : Bool :=
  hasSubstrCL "constan".data (lowerCL (j.getD "").data)

/-- The per-firm license count:
`SUM(...)` over `public.licente` grouped by `cui`, `COALESCE(..., 0)` when the
firm has no license rows. -/
def licCount (lics : List LicRow) (cui : String) : Int :=
  ((lics.filter (fun l => l.cui == cui)).map (fun l => l.cnt)).sum

/-- The `candidate_firms` CTE of `rebuild_top20`: firms with no activity row
whose `judet` does not contain `constan` case-insensitively. -/
def candidateFirms (firms : List Firm) (acts : List ActivityRow) : List Firm :=
  firms.filter (fun f => !hasActivity acts f.cui && !judetExcluded f.judet)

/-- `ORDER BY lic_count DESC, cifra_val DESC` as a boolean relation on
(license count, revenue) pairs. -/
def desirGE (a b : Int × Int) : Bool :=
  a.1 > b.1 || (a.1 == b.1 && a.2 ≥ b.2)

/-- The Python insert loop of `rebuild_top20`: ranks are assigned 1,2,…
in result order and `used` is inserted as `false`. -/
def assignRanks : Nat → List (Firm × Int) → List SuggestionRow
  | _, [] => []
  | r, (f, lic) :: t =>
    ⟨r, f.cui, f.denumire, lic, f.cifra, false⟩ :: assignRanks (r + 1) t

/-- The candidate query + insert loop of `rebuild_top20`, as a function of
the tables it reads (it does not read `suggested_top`). -/
def computeTop (firms : List Firm) (lics : List LicRow)
    (acts : List ActivityRow) (limit : Nat) : List SuggestionRow :=
  let cands := (candidateFirms firms acts).map (fun f => (f, licCount lics f.cui))
  let sorted := cands.mergeSort
    (fun a b => desirGE (a.2, a.1.cifra) (b.2, b.1.cifra))
  assignRanks 1 (sorted.take limit)

/-- `rebuild_top20(limit)`: `TRUNCATE public.suggested_top` followed by the
ranked reinsert. -/
def rebuildTop20 (db : DB) (limit : Nat) : DB :=
  let db := ensureTables db
  { db with suggestedTop := computeTop db.firms db.licente db.activities limit }

/-! ## The CAEN ranker (`rebuild_top20_caen`) -/

/-- The fixed county list of `rebuild_top20_caen`. -/
def targetJudete : List String :=
  ["galati", "brăila", "braila", "tulcea", "vaslui", "vrancea",
   "ialomiţa", "ialomita"]

/-- Strip whitespace at both ends of a character list. -/
def trimCL (l : List Char) : List Char :=
  (((l.dropWhile Char.isWhitespace).reverse).dropWhile Char.isWhitespace).reverse

/-- SQL `trim` / Python `str.strip()` (strip whitespace at both ends). -/
def sqlTrim (s : String) : String := ⟨trimCL s.data⟩

/-- `COALESCE(lower(trim(f.judet::text)), '')`. -/
def judetNorm (j : Option String) : String :=
  match j with
  | none => ""
  | some s => ⟨lowerCL (sqlTrim s).data⟩

/-- SQL `DISTINCT`: drop later duplicates, keeping first occurrences. -/
def dedupFirstAux [BEq α] (seen : List α) : List α → List α
  | [] => []
  | a :: t =>
    if seen.contains a then dedupFirstAux seen t
    else a :: dedupFirstAux (a :: seen) t

def dedupFirst [BEq α] (l : List α) : List α := dedupFirstAux [] l

/-- The projected tuple of the `raw_candidates` CTE:
(cui, denumire, cifra, judet_norm). -/
def caenTuple (f : Firm) : String × String × Int × String :=
  (f.cui, f.denumire, f.cifra, judetNorm f.judet)

/-- The `raw_candidates` CTE filter of `rebuild_top20_caen`: caen joins
`relevant_caen` on trimmed equality and the firm has no activity row. -/
def caenCandidates (firms : List Firm) (relevant : List String)
    (acts : List ActivityRow) : List Firm :=
  firms.filter (fun f =>
    relevant.any (fun c => sqlTrim f.caen == sqlTrim c) &&
    !hasActivity acts f.cui)

/-- The Python insert loop of `rebuild_top20_caen`: skip empty or
already-seen CUIs (without advancing the rank), re-read caen/cifra/licente
from the first matching `firms` row, insert with increasing ranks. -/
def caenRowsLoop (firms : List Firm) (seen : List String) (rank : Nat) :
    List (String × String × Int × String) → List CaenRow
  | [] => []
  | (cui, name, _, _) :: t =>
    if cui == "" || seen.contains cui then caenRowsLoop firms seen rank t
    else
      let firmVals := firms.find? (fun f => f.cui == cui)
      let caenVal := firmVals.map (fun f => f.caen)
      let cifraVal := (firmVals.map (fun f => f.cifra)).getD 0
      let licVal := 0
      ⟨rank, cui, name, caenVal, cifraVal, licVal⟩ ::
        caenRowsLoop firms (cui :: seen) (rank + 1) t

/-- The candidate query + insert loop of `rebuild_top20_caen` as a function
of the tables it reads.  (The per-row `numar_licente` re-select finds no
`numar_licente` column in the modelled `firms` schema, so the detected
`lic_col` is absent and `0` is selected, as in the source fallback.) -/
def computeTopCaen (firms : List Firm) (relevant : List String)
    (acts : List ActivityRow) (limit : Nat) : List CaenRow :=
  let tuples := dedupFirst ((caenCandidates firms relevant acts).map caenTuple)
  let inCounties := tuples.filter (fun t => targetJudete.contains t.2.2.2)
  let sorted := inCounties.mergeSort (fun a b => a.2.2.1 ≥ b.2.2.1)
  caenRowsLoop firms [] 1 (sorted.take limit)

/-- `rebuild_top20_caen(limit)`: truncate `suggested_by_caen` and reinsert. -/
def rebuildTop20Caen (db : DB) (limit : Nat) : DB :=
  let db := ensureTables db
  { db with suggestedByCaen :=
      computeTopCaen db.firms db.relevantCaen db.activities limit }

/-! ## Consumption (`take_next_suggestions`, `mark_suggestions_used`) -/

/-- `take_next_suggestions(n)`:
`SELECT … FROM suggested_top WHERE used = false ORDER BY rank LIMIT n`. -/
def takeNextSuggestions (db : DB) (n : Nat) : List SuggestionRow :=
  (((db.suggestedTop.filter (fun r => r.used == false)).mergeSort
      (fun a b => a.rank ≤ b.rank)).take n)

/-- `mark_suggestions_used(cuis)`: early return on an empty list, otherwise
`UPDATE suggested_top SET used = true WHERE cui = ANY(cuis)` followed by
`rebuild_top20(20)` and `rebuild_top20_caen(20)`. -/
def markSuggestionsUsed (db : DB) (cuis : List String) : DB :=
  if cuis.isEmpty then db
  else
    let db1 := { db with suggestedTop :=
      db.suggestedTop.map (fun r =>
        if cuis.contains r.cui then { r with used := true } else r) }
    rebuildTop20Caen (rebuildTop20 db1 20) 20

/-! ## The agenda endpoint (`api_agenda` in `main.py`) -/

/-- An error response (`HTTPException(status, detail)`). -/
structure ApiError where
  status : Nat
  detail : String
  deriving DecidableEq

/-- An endpoint outcome: a JSON value or a raised `HTTPException`. -/
inductive Resp (α : Type) where
  | ok : α → Resp α
  | err : ApiError → Resp α
  deriving DecidableEq

/-- The optional `cui` query filter (`AND a.cui = :cui` when supplied). -/
def cuiMatch (cuiq : Option String) (a : ActivityRow) : Bool :=
  match cuiq with
  | none => true
  | some c => a.cui == c

/-- The WHERE clause of the `scheduled` query:
`a.scheduled_date = :day AND COALESCE(a.completed, false) = false` plus the
optional cui filter. -/
def schedCond (day : Int) (cuiq : Option String) (a : ActivityRow) : Bool :=
  a.scheduledDate == some day && !a.completed && cuiMatch cuiq a

/-- The WHERE clause of the `overdue` query: `a.scheduled_date < :day` (a
NULL scheduled date compares to nothing) plus completion and cui filters. -/
def overdueCond (day : Int) (cuiq : Option String) (a : ActivityRow) : Bool :=
  (match a.scheduledDate with
   | some s => decide (s < day)
   | none => false) && !a.completed && cuiMatch cuiq a

/-- The WHERE clause of the `nearby` query:
`a.scheduled_date > :day AND a.scheduled_date <= :day_end` with
`day_end = :day + 7`, plus completion and cui filters. -/
def nearbyCond (day : Int) (cuiq : Option String) (a : ActivityRow) : Bool :=
  (match a.scheduledDate with
   | some s => decide (day < s ∧ s ≤ day + 7)
   | none => false) && !a.completed && cuiMatch cuiq a

/-- The `scheduled` query: `ORDER BY created_at DESC LIMIT 500`. -/
def agendaScheduled (acts : List ActivityRow) (day : Int)
    (cuiq : Option String) : List ActivityRow :=
  ((acts.filter (schedCond day cuiq)).mergeSort
    (fun a b => b.createdAt ≤ a.createdAt)).take 500

/-- The `overdue` query: `ORDER BY scheduled_date DESC LIMIT 200`. -/
def agendaOverdue (acts : List ActivityRow) (day : Int)
    (cuiq : Option String) : List ActivityRow :=
  ((acts.filter (overdueCond day cuiq)).mergeSort
    (fun a b => (b.scheduledDate.getD 0) ≤ (a.scheduledDate.getD 0))).take 200

/-- The `nearby` query: `ORDER BY scheduled_date ASC LIMIT 500`. -/
def agendaNearby (acts : List ActivityRow) (day : Int)
    (cuiq : Option String) : List ActivityRow :=
  ((acts.filter (nearbyCond day cuiq)).mergeSort
    (fun a b => (a.scheduledDate.getD 0) ≤ (b.scheduledDate.getD 0))).take 500

/-- The `day` parameter handling of `api_agenda`: a missing `day` defaults to
`date.today()`; an unparseable one raises `400 "invalid day"`. -/
def apiAgendaTarget (day : Option String) (today : Int) : Resp Int :=
  match day with
  | none => .ok today
  | some s =>
    match parseIsoDate s with
    | some d => .ok d
    | none => .err ⟨400, "invalid day"⟩

/-! ## Activity creation (`create_or_update_activity` in `main.py`) -/

/-- The JSON payload of `POST /api/activities` (each field stands for its
group of alias keys, e.g. `programare_id` / `programareId` / `programare`). -/
structure ActivityPayload where
  firm_id : Option String := none
  comment : Option String := none
  activity_type_id : Option Int := none
  score : Option Int := none
  programare_id : Option Int := none
  programare_days : Option Int := none
  scheduled_date : Option String := none
  completed : Option Bool := none
  deriving DecidableEq

/-- `_lookup_reprogram_option`: first row with the given id, as
`(label, days)`; `(None, None)` when absent. -/
def lookupReprogramOption (opts : List ReprogramOption) (rid : Int) :
    Option String × Option Int :=
  match opts.find? (fun o => o.id == rid) with
  | some o => (some o.label, o.days)
  | none => (none, none)

/-- The body returned on success (`RETURNING id, scheduled_date`). -/
structure CreateResp where
  id : Nat
  scheduled : Option Int
  deriving DecidableEq

/-- The `(prog_label, prog_days)` computation of `create_or_update_activity`:
a truthy `programare_days` override wins, otherwise a truthy `programare_id`
is looked up in `reprogram_options`. -/
def progLabelDays (opts : List ReprogramOption) (p : ActivityPayload) :
    Option String × Option Int :=
  match pyTruthyInt p.programare_days with
  | some d => (some ("manual (" ++ toString d ++ ")"), some d)
  | none =>
    match pyTruthyInt p.programare_id with
    | some pid => lookupReprogramOption opts pid
    | none => (none, none)

/-- The `scheduled` date computation of `create_or_update_activity`:
`today + prog_days` when the reprogram path yielded days, otherwise the
client's `scheduled_date` string if it parses, otherwise nothing. -/
def scheduledOf (opts : List ReprogramOption) (today : Int)
    (p : ActivityPayload) : Option Int :=
  match (progLabelDays opts p).2 with
  | some d => some (today + d)
  | none =>
    match pyTruthyStr p.scheduled_date with
    | some s => parseIsoDate s
    | none => none

/-- `create_or_update_activity(payload)`: validate `firm_id`/`comment`,
compute the reprogram fields and the scheduled date, `INSERT` the activity,
mark the firm's `suggested_top` row used, then rebuild both candidate
tables.  `today` stands for `date.today()` / `datetime.utcnow().date()` and
`ts` for the `now()` insert timestamp. -/
def createOrUpdateActivity (db : DB) (today ts : Int) (p : ActivityPayload) :
    DB × Resp CreateResp :=
  let cui := sqlTrim (p.firm_id.getD "")
  let comment := sqlTrim (p.comment.getD "")
  if cui == "" || comment == "" then
    (db, .err ⟨400, "firm_id and comment required"⟩)
  else
    let (progLabel, progDays) := progLabelDays db.reprogramOptions p
    let scheduled := scheduledOf db.reprogramOptions today p
    let newId := db.nextActivityId
    let row : ActivityRow :=
      { id := newId
        cui := cui
        activityTypeId := pyTruthyInt p.activity_type_id
        comment := comment
        score := pyTruthyInt p.score
        reprogramId := pyTruthyInt p.programare_id
        reprogramLabel := progLabel
        reprogramDays := progDays
        scheduledDate := scheduled
        completed := p.completed.getD false
        createdAt := ts }
    let db1 := { db with
      activities := db.activities ++ [row]
      nextActivityId := newId + 1
      suggestedTop := db.suggestedTop.map (fun r =>
        if r.cui == cui then { r with used := true } else r) }
    let db2 := rebuildTop20Caen (rebuildTop20 db1 20) 20
    (db2, .ok ⟨newId, scheduled⟩)

/-! ## The activities router (`create_activity_for_firm` in `activities.py`)

The router's ORM `Activity` model has only cui / type / comment / score /
created_at; the other columns stay at their defaults. -/

/-- `POST /activitati/firma/{cui}/create`: unconditionally adds a new
`Activity` row. -/
def routerCreateActivity (db : DB) (ts : Int) (cui : String)
    (comment : Option String) (score : Option Int) : DB × Nat :=
  let newId := db.nextActivityId
  let row : ActivityRow :=
    { id := newId, cui := cui, activityTypeId := none
      comment := comment.getD "", score := score
      reprogramId := none, reprogramLabel := none, reprogramDays := none
      scheduledDate := none, completed := false, createdAt := ts }
  ({ db with activities := db.activities ++ [row],
             nextActivityId := newId + 1 }, newId)

/-! ## The agenda router (`get_agenda` in `agenda.py`) -/

/-- The `data` parameter handling of `get_agenda`: a required string, an
unparseable one raises `400 "data must be ISO date YYYY-MM-DD"`. -/
def getAgendaDate (data : String) : Resp Int :=
  match parseIsoDate data with
  | some d => .ok d
  | none => .err ⟨400, "data must be ISO date YYYY-MM-DD"⟩

/-! ## Concrete instances used by witnesses and counterexamples -/

/-- The database right after startup on an empty business dataset:
`reprogram_options` populated, everything else empty. -/
def emptyDB : DB := ⟨[], [], [], [], [], defaultReprogramOptions, [], 1⟩

/-- A minimal valid creation payload carrying a reprogram option. -/
def progPayload (s : Int) : ActivityPayload :=
  { firm_id := some "F", comment := some "call", programare_id := some s }

/-- The score → day-offset table exactly as the specification text states it
(spec side of the refinement comparison; the code side is
`defaultReprogramOptions`). -/
def specC1Offsets (s : Int) : Int :=
  match s with
  | 1 => 1 | 2 => 3 | 3 => 5 | 4 => 10 | 5 => 30 | 6 => 90 | 7 => 150
  | 8 => 270 | 9 => 365 | 10 => 547 | 11 => 730 | 12 => 912 | 13 => 1095
  | 14 => 1277 | 15 => 1460 | 16 => 1825 | 17 => 2190 | 18 => 2555
  | 19 => 2920 | _ => 0

/-- The `days` column of `defaultReprogramOptions`, keyed by the serial id:
the offsets `create_or_update_activity` actually applies. -/
def codeOffsets (s : Int) : Option Int :=
  match s with
  | 1 => some 1 | 2 => some 2 | 3 => some 3 | 4 => some 4 | 5 => some 5
  | 6 => some 7 | 7 => some 14 | 8 => some 21 | 9 => some 30 | 10 => some 60
  | 11 => some 90 | 12 => some 180 | 13 => some 270 | 14 => some 365
  | 15 => some 548 | 16 => some 730 | 17 => some 1095 | 18 => some 1460
  | 19 => some 1825 | _ => none

def fA : Firm := ⟨"A", "Alpha SRL", some "Galati", 100, "4941"⟩

def fB : Firm := ⟨"B", "Beta SRL", some "Braila", 200, "4941"⟩

def fC : Firm := ⟨"C", "Gamma SRL", some "Constanta", 300, "4941"⟩

def actX : ActivityRow :=
  ⟨1, "X", none, "note", none, none, none, none, none, false, 0⟩

/-- A small populated database: three firms, one license row, one activity
for a firm outside the firms table. -/
def dbW : DB :=
  { emptyDB with firms := [fA, fB, fC], licente := [⟨"A", 3⟩],
                 activities := [actX], relevantCaen := ["4941"] }

/-- A database whose `suggested_top` holds a used row between two unused. -/
def dbSugg : DB :=
  { emptyDB with suggestedTop :=
      [⟨1, "A", "A", 3, 100, false⟩, ⟨2, "B", "B", 2, 50, true⟩,
       ⟨3, "C", "C", 1, 10, false⟩] }

/-- A `dbW` state whose candidate table has been built. -/
def dbT : DB := rebuildTop20 dbW 20

/-- A payload carrying both a reprogram option (id 1 → 1 day) and an
explicit scheduled date. -/
def payC2 : ActivityPayload :=
  { firm_id := some "F", comment := some "call", programare_id := some 1,
    scheduled_date := some "2030-01-01" }

def payC7 : ActivityPayload := { firm_id := some "X", comment := some "hello" }

/-- State after creating `payC7` once / twice on the empty database. -/
def dbC7a : DB := (createOrUpdateActivity emptyDB 0 100 payC7).1

def dbC7b : DB := (createOrUpdateActivity dbC7a 0 101 payC7).1

/-- A creation payload whose scheduled date does not parse. -/
def payC9 : ActivityPayload :=
  { firm_id := some "F", comment := some "x",
    scheduled_date := some "notadate" }

/-- 201 distinct non-completed activities all overdue for day 10. -/
def mkOverdueAct (i : Nat) : ActivityRow :=
  ⟨i, "c", none, "", none, none, none, none, some 9, false, (i : Int)⟩

def overdueActs : List ActivityRow := (List.range 201).map mkOverdueAct

/-- Four activities around day 10: due that day, overdue, upcoming within a
week, and beyond the seven-day window. -/
def actsW : List ActivityRow :=
  [⟨1, "c", none, "a1", none, none, none, none, some 10, false, 1⟩,
   ⟨2, "c", none, "a2", none, none, none, none, some 9, false, 2⟩,
   ⟨3, "c", none, "a3", none, none, none, none, some 12, false, 3⟩,
   ⟨4, "c", none, "a4", none, none, none, none, some 30, false, 4⟩]

/-! ## Helper lemmas -/

theorem desirGE_trans (a b c : Int × Int) (h1 : desirGE a b = true)
    (h2 : desirGE b c = true) : desirGE a c = true := by
  simp only [desirGE, Bool.or_eq_true, Bool.and_eq_true, decide_eq_true_eq,
    beq_iff_eq] at *
  omega

theorem desirGE_total (a b : Int × Int) : (desirGE a b || desirGE b a) = true := by
  simp only [desirGE, Bool.or_eq_true, Bool.and_eq_true, decide_eq_true_eq,
    beq_iff_eq]
  omega

theorem length_assignRanks (k : Nat) (l : List (Firm × Int)) :
    (assignRanks k l).length = l.length := by
  induction l generalizing k with
  | nil => rfl
  | cons p t ih => cases p; simp [assignRanks, ih]

theorem map_rank_assignRanks (k : Nat) (l : List (Firm × Int)) :
    (assignRanks k l).map (fun r => r.rank) = List.range' k l.length := by
  induction l generalizing k with
  | nil => rfl
  | cons p t ih => cases p; simp [assignRanks, List.range', ih]

theorem mem_assignRanks {r : SuggestionRow} (k : Nat) (l : List (Firm × Int))
    (h : r ∈ assignRanks k l) :
    r.used = false ∧
      ∃ p ∈ l, r.cui = p.1.cui ∧ r.licente = p.2 ∧ r.cifra = p.1.cifra := by
  induction l generalizing k with
  | nil => simp [assignRanks] at h
  | cons p t ih =>
    obtain ⟨f, lic⟩ := p
    rcases List.mem_cons.mp h with h | h
    · subst h
      exact ⟨rfl, (f, lic), List.mem_cons_self _ _, rfl, rfl, rfl⟩
    · obtain ⟨hu, q, hq, h1, h2, h3⟩ := ih _ h
      exact ⟨hu, q, List.mem_cons_of_mem _ hq, h1, h2, h3⟩

theorem pairwise_assignRanks (k : Nat) (l : List (Firm × Int))
    (h : l.Pairwise (fun a b => desirGE (a.2, a.1.cifra) (b.2, b.1.cifra) = true)) :
    (assignRanks k l).Pairwise
      (fun a b => desirGE (a.licente, a.cifra) (b.licente, b.cifra) = true) := by
  induction l generalizing k with
  | nil => exact List.Pairwise.nil
  | cons p t ih =>
    obtain ⟨f, lic⟩ := p
    rcases List.pairwise_cons.mp h with ⟨hhead, htail⟩
    refine List.Pairwise.cons ?_ (ih _ htail)
    intro b hb
    obtain ⟨-, q, hq, hcui, hlic, hcifra⟩ := mem_assignRanks _ _ hb
    have := hhead q hq
    rw [hlic, hcifra]
    exact this

theorem pairwise_take_drop {α : Type} {R : α → α → Prop} {l : List α}
    (h : l.Pairwise R) (n : Nat) {x y : α} (hx : x ∈ l.take n)
    (hy : y ∈ l.drop n) : R x y := by
  have h' : (l.take n ++ l.drop n).Pairwise R := by
    rw [List.take_append_drop]; exact h
  exact (List.pairwise_append.mp h').2.2 x hx y hy

theorem mem_dedupFirstAux {α : Type} [BEq α] {a : α} (seen : List α)
    (l : List α) (h : a ∈ dedupFirstAux seen l) : a ∈ l := by
  induction l generalizing seen with
  | nil => simp [dedupFirstAux] at h
  | cons b t ih =>
    simp only [dedupFirstAux] at h
    split at h
    · exact List.mem_cons_of_mem _ (ih _ h)
    · rcases List.mem_cons.mp h with h | h
      · exact h ▸ List.mem_cons_self _ _
      · exact List.mem_cons_of_mem _ (ih _ h)

theorem mem_caenRowsLoop {r : CaenRow} (firms : List Firm) (seen : List String)
    (k : Nat) (l : List (String × String × Int × String))
    (h : r ∈ caenRowsLoop firms seen k l) : ∃ t ∈ l, r.cui = t.1 := by
  induction l generalizing seen k with
  | nil => simp [caenRowsLoop] at h
  | cons t ts ih =>
    obtain ⟨cui, name, cifra, jn⟩ := t
    simp only [caenRowsLoop] at h
    split at h
    · obtain ⟨u, hu, he⟩ := ih _ _ h
      exact ⟨u, List.mem_cons_of_mem _ hu, he⟩
    · rcases List.mem_cons.mp h with h | h
      · subst h
        exact ⟨(cui, name, cifra, jn), List.mem_cons_self _ _, rfl⟩
      · obtain ⟨u, hu, he⟩ := ih _ _ h
        exact ⟨u, List.mem_cons_of_mem _ hu, he⟩

/-- Every row of `computeTop` comes from an eligible firm (no activity, not
in the excluded region), with `used` inserted `false`. -/
theorem mem_computeTop {r : SuggestionRow} (firms : List Firm)
    (lics : List LicRow) (acts : List ActivityRow) (limit : Nat)
    (h : r ∈ computeTop firms lics acts limit) :
    r.used = false ∧ ∃ f ∈ firms, r.cui = f.cui ∧
      hasActivity acts f.cui = false ∧ judetExcluded f.judet = false := by
  obtain ⟨hu, p, hp, hcui, -, -⟩ := mem_assignRanks _ _ h
  have hp1 : p ∈ ((candidateFirms firms acts).map
      (fun f => (f, licCount lics f.cui))).mergeSort
      (fun a b => desirGE (a.2, a.1.cifra) (b.2, b.1.cifra)) :=
    List.take_subset _ _ hp
  have hp2 := List.mem_mergeSort.mp hp1
  obtain ⟨f, hf, hfp⟩ := List.mem_map.mp hp2
  obtain ⟨hfm, hcond⟩ := List.mem_filter.mp hf
  rw [Bool.and_eq_true, Bool.not_eq_true', Bool.not_eq_true'] at hcond
  exact ⟨hu, f, hfm, by rw [hcui, ← hfp], hcond.1, hcond.2⟩

/-! ## Claim theorems -/

/-- C3: for every limit, `rebuild_top20(limit)` fully replaces
`suggested_top` (its previous contents are irrelevant to the result) with at
most `limit` firms, each having no activity row and a `judet` not containing
`constan` case-insensitively, assigned ranks 1,2,… in order of license count
descending then revenue descending. -/
theorem rebuildTop20_spec (db : DB) (limit : Nat) :
    (∀ s, (rebuildTop20 { db with suggestedTop := s } limit).suggestedTop
        = (rebuildTop20 db limit).suggestedTop) ∧
    (rebuildTop20 db limit).suggestedTop.length ≤ limit ∧
    (∀ r ∈ (rebuildTop20 db limit).suggestedTop, ∃ f ∈ db.firms,
        r.cui = f.cui ∧ hasActivity db.activities f.cui = false ∧
        judetExcluded f.judet = false) ∧
    (rebuildTop20 db limit).suggestedTop.map (fun r => r.rank)
        = List.range' 1 (rebuildTop20 db limit).suggestedTop.length ∧
    (rebuildTop20 db limit).suggestedTop.Pairwise
        (fun a b => desirGE (a.licente, a.cifra) (b.licente, b.cifra) = true) := by
  have hout : (rebuildTop20 db limit).suggestedTop
      = computeTop db.firms db.licente db.activities limit := rfl
  refine ⟨fun s => rfl, ?_, ?_, ?_, ?_⟩
  · rw [hout]
    unfold computeTop
    rw [length_assignRanks]
    exact List.length_take_le _ _
  · intro r hr
    rw [hout] at hr
    obtain ⟨-, f, hfm, h1, h2, h3⟩ := mem_computeTop _ _ _ _ hr
    exact ⟨f, hfm, h1, h2, h3⟩
  · rw [hout]
    unfold computeTop
    rw [map_rank_assignRanks, length_assignRanks]
  · rw [hout]
    unfold computeTop
    apply pairwise_assignRanks
    have hs := @List.sorted_mergeSort (Firm × Int)
      (fun a b => desirGE (a.2, a.1.cifra) (b.2, b.1.cifra))
      (fun a b c h1 h2 => desirGE_trans _ _ _ h1 h2)
      (fun a b => desirGE_total _ _)
      ((candidateFirms db.firms db.activities).map
        (fun f => (f, licCount db.licente f.cui)))
    exact List.Pairwise.sublist (List.take_sublist limit _) hs

/-- Witness for C3: the theorem instantiated at the concrete database `dbW`
and limit 2. -/
theorem rebuildTop20_spec_witness :
    (∀ s, (rebuildTop20 { dbW with suggestedTop := s } 2).suggestedTop
        = (rebuildTop20 dbW 2).suggestedTop) ∧
    (rebuildTop20 dbW 2).suggestedTop.length ≤ 2 ∧
    (∀ r ∈ (rebuildTop20 dbW 2).suggestedTop, ∃ f ∈ dbW.firms,
        r.cui = f.cui ∧ hasActivity dbW.activities f.cui = false ∧
        judetExcluded f.judet = false) ∧
    (rebuildTop20 dbW 2).suggestedTop.map (fun r => r.rank)
        = List.range' 1 (rebuildTop20 dbW 2).suggestedTop.length ∧
    (rebuildTop20 dbW 2).suggestedTop.Pairwise
        (fun a b => desirGE (a.licente, a.cifra) (b.licente, b.cifra) = true) :=
  rebuildTop20_spec dbW 2

/-- C4: a firm with at least one activity row is absent from
`suggested_top` after `rebuild_top20` and from `suggested_by_caen` after
`rebuild_top20_caen`. -/
theorem firm_with_activity_never_suggested (db : DB) (limit : Nat)
    (cui : String) (h : hasActivity db.activities cui = true) :
    (∀ r ∈ (rebuildTop20 db limit).suggestedTop, r.cui ≠ cui) ∧
    (∀ r ∈ (rebuildTop20Caen db limit).suggestedByCaen, r.cui ≠ cui) := by
  constructor
  · intro r hr heq
    obtain ⟨-, f, -, hcui, hact, -⟩ := mem_computeTop _ _ _ _ hr
    have hact' : hasActivity db.activities f.cui = false := hact
    have hfc : f.cui = cui := by rw [← heq, hcui]
    rw [hfc, h] at hact'
    exact Bool.true_eq_false.mp hact'
  · intro r hr heq
    have hr' : r ∈ computeTopCaen db.firms db.relevantCaen db.activities limit := hr
    obtain ⟨t, ht, hcui⟩ := mem_caenRowsLoop _ _ _ _ hr'
    have ht1 := List.take_subset _ _ ht
    have ht2 := List.mem_mergeSort.mp ht1
    have ht3 := (List.mem_filter.mp ht2).1
    have ht4 := mem_dedupFirstAux _ _ ht3
    obtain ⟨f, hf, hft⟩ := List.mem_map.mp ht4
    obtain ⟨-, hcond⟩ := List.mem_filter.mp hf
    rw [Bool.and_eq_true, Bool.not_eq_true'] at hcond
    have hteq : t.1 = f.cui := by rw [← hft]; rfl
    have hfc : f.cui = cui := by rw [← hteq, ← hcui, heq]
    have hact' := hcond.2
    rw [hfc, h] at hact'
    exact Bool.true_eq_false.mp hact'

/-- Witness for C4: firm "X" has an activity row in `dbW` and is absent
from both rebuilt candidate tables. -/
theorem firm_with_activity_never_suggested_witness :
    hasActivity dbW.activities "X" = true ∧
    ((∀ r ∈ (rebuildTop20 dbW 20).suggestedTop, r.cui ≠ "X") ∧
     (∀ r ∈ (rebuildTop20Caen dbW 20).suggestedByCaen, r.cui ≠ "X")) :=
  ⟨by decide, firm_with_activity_never_suggested dbW 20 "X" (by decide)⟩

/-- C5: for `n ≥ 1`, `take_next_suggestions(n)` returns at most `n` rows,
none of them used, in ascending rank order, and they are the first unused
candidates: no unused row left behind has a smaller rank. -/
theorem takeNextSuggestions_spec (db : DB) (n : Nat) (_hn : 1 ≤ n) :
    (takeNextSuggestions db n).length ≤ n ∧
    (∀ r ∈ takeNextSuggestions db n, r.used = false) ∧
    (takeNextSuggestions db n).Pairwise (fun a b => a.rank ≤ b.rank) ∧
    (∀ y ∈ db.suggestedTop, y.used = false → y ∉ takeNextSuggestions db n →
      ∀ x ∈ takeNextSuggestions db n, x.rank ≤ y.rank) := by
  have hsorted : ((db.suggestedTop.filter (fun r => r.used == false)).mergeSort
      (fun a b => decide (a.rank ≤ b.rank))).Pairwise
      (fun a b => decide (a.rank ≤ b.rank) = true) :=
    List.sorted_mergeSort
      (fun a b c h1 h2 => by
        simp only [decide_eq_true_eq] at *; omega)
      (fun a b => by
        simp only [Bool.or_eq_true, decide_eq_true_eq]; omega) _
  refine ⟨List.length_take_le _ _, ?_, ?_, ?_⟩
  · intro r hr
    have h1 := List.take_subset _ _ hr
    have h2 := List.mem_mergeSort.mp h1
    have h3 := (List.mem_filter.mp h2).2
    exact beq_iff_eq.mp h3
  · have := List.Pairwise.sublist (List.take_sublist n _) hsorted
    exact this.imp (fun h => decide_eq_true_eq.mp h)
  · intro y hy hyu hynot x hx
    have hyf : y ∈ db.suggestedTop.filter (fun r => r.used == false) :=
      List.mem_filter.mpr ⟨hy, by simp [hyu]⟩
    have hys : y ∈ (db.suggestedTop.filter (fun r => r.used == false)).mergeSort
        (fun a b => decide (a.rank ≤ b.rank)) := List.mem_mergeSort.mpr hyf
    have hsplit := List.take_append_drop n
      ((db.suggestedTop.filter (fun r => r.used == false)).mergeSort
        (fun a b => decide (a.rank ≤ b.rank)))
    rw [← hsplit] at hys
    rcases List.mem_append.mp hys with hyt | hyd
    · exact absurd hyt hynot
    · exact decide_eq_true_eq.mp (pairwise_take_drop hsorted n hx hyd)

/-- Witness for C5: the theorem at `dbSugg` with `n = 2`. -/
theorem takeNextSuggestions_spec_witness :
    1 ≤ 2 ∧
    ((takeNextSuggestions dbSugg 2).length ≤ 2 ∧
     (∀ r ∈ takeNextSuggestions dbSugg 2, r.used = false) ∧
     (takeNextSuggestions dbSugg 2).Pairwise (fun a b => a.rank ≤ b.rank) ∧
     (∀ y ∈ dbSugg.suggestedTop, y.used = false →
        y ∉ takeNextSuggestions dbSugg 2 →
        ∀ x ∈ takeNextSuggestions dbSugg 2, x.rank ≤ y.rank)) :=
  ⟨by decide, takeNextSuggestions_spec dbSugg 2 (by decide)⟩

/-- C8: `rebuild_top20` applied twice in a row (no intervening change to
`firms`, `licente` or `activities`) produces the same `suggested_top`
contents — here proved as on-the-nose equality, stronger than equality
modulo tie-break order. -/
theorem rebuildTop20_idempotent (db : DB) (limit : Nat) :
    (rebuildTop20 (rebuildTop20 db limit) limit).suggestedTop
      = (rebuildTop20 db limit).suggestedTop := rfl

/-- Witness for C8: the theorem at the concrete database `dbW`. -/
theorem rebuildTop20_idempotent_witness :
    (rebuildTop20 (rebuildTop20 dbW 20) 20).suggestedTop
      = (rebuildTop20 dbW 20).suggestedTop :=
  rebuildTop20_idempotent dbW 20

/-! ### Scheduling lemmas shared by C1, C2, C7, C9 -/

/-- A successfully validated creation returns the freshly inserted id and
the computed scheduled date. -/
theorem createOrUpdateActivity_ok (db : DB) (today ts : Int)
    (p : ActivityPayload)
    (h : (sqlTrim (p.firm_id.getD "") == ""
          || sqlTrim (p.comment.getD "") == "") = false) :
    (createOrUpdateActivity db today ts p).2
      = .ok ⟨db.nextActivityId, scheduledOf db.reprogramOptions today p⟩ := by
  simp [createOrUpdateActivity, h]

/-- A successfully validated creation appends exactly one activity row. -/
theorem createOrUpdateActivity_appends (db : DB) (today ts : Int)
    (p : ActivityPayload)
    (h : (sqlTrim (p.firm_id.getD "") == ""
          || sqlTrim (p.comment.getD "") == "") = false) :
    ∃ row, (createOrUpdateActivity db today ts p).1.activities
      = db.activities ++ [row] := by
  simp [createOrUpdateActivity, h]
  exact ⟨_, rfl⟩

/-- With the default option table, a payload carrying only `programare_id = s`
(1 ≤ s ≤ 20) is scheduled `today + days(s)` per the code's table. -/
theorem scheduledOf_default (today : Int) (s : Int) (h1 : 1 ≤ s)
    (h2 : s ≤ 20) :
    scheduledOf defaultReprogramOptions today (progPayload s)
      = (codeOffsets s).map (fun d => today + d) := by
  interval_cases s <;> rfl

/-- Same as `scheduledOf_default` with an explicit client date also present:
for ids 1–19 the table result is unchanged by the client date. -/
theorem scheduledOf_default_withDate (today : Int) (s : Int) (sd : String)
    (h1 : 1 ≤ s) (h2 : s ≤ 19) :
    scheduledOf defaultReprogramOptions today
        { progPayload s with scheduled_date := some sd }
      = (codeOffsets s).map (fun d => today + d) := by
  interval_cases s <;> rfl

theorem pyTruthyStr_of_ne {sd : String} (h : sd ≠ "") :
    pyTruthyStr (some sd) = some sd := by
  unfold pyTruthyStr
  split
  · next heq => exact absurd (Option.some.injEq .. ▸ congrArg id heq) (by simpa using h)
  · rfl

/-- With the default option table and id 20 ("Nu programa"), the reprogram
path yields no date and a nonempty client date string is parsed instead. -/
theorem scheduledOf_default_id20 (today : Int) (sd : String) (h : sd ≠ "") :
    scheduledOf defaultReprogramOptions today
        { progPayload 20 with scheduled_date := some sd }
      = parseIsoDate sd := by
  have hp : (progLabelDays defaultReprogramOptions
      { progPayload 20 with scheduled_date := some sd }).2 = none := rfl
  unfold scheduledOf
  rw [hp]
  have hs : pyTruthyStr ({ progPayload 20 with
      scheduled_date := some sd } : ActivityPayload).scheduled_date
      = some sd := pyTruthyStr_of_ne h
  rw [show ({ progPayload 20 with scheduled_date := some sd } :
      ActivityPayload).scheduled_date = some sd from rfl, pyTruthyStr_of_ne h]

/-! ### C1 -/

/-- Counterexample to C1: with the options table populated by
`ensure_suggested_and_reprogram_tables`, creating an activity with
`programare_id = 2` on day 0 stores scheduled date `0 + 2`, while the
claim's table maps score 2 to offset 3. -/
theorem schedule_table_counterexample :
    (createOrUpdateActivity emptyDB 0 100 (progPayload 2)).2
        = .ok ⟨1, some 2⟩ ∧
    specC1Offsets 2 = 3 ∧ ((2 : Int) ≠ 0 + specC1Offsets 2) := by decide

/-- C1 (amended): with the options table populated by
`ensure_suggested_and_reprogram_tables`, for ids 1–19 the stored scheduled
date is today plus the table offset {1:1, 2:2, 3:3, 4:4, 5:5, 6:7, 7:14,
8:21, 9:30, 10:60, 11:90, 12:180, 13:270, 14:365, 15:548, 16:730, 17:1095,
18:1460, 19:1825}, and for id 20 no scheduled date is set. -/
theorem schedule_by_code_table (db : DB) (today ts : Int) (s : Int)
    (hopts : db.reprogramOptions = defaultReprogramOptions)
    (h1 : 1 ≤ s) (h2 : s ≤ 20) :
    (createOrUpdateActivity db today ts (progPayload s)).2
      = .ok ⟨db.nextActivityId, (codeOffsets s).map (fun d => today + d)⟩ := by
  rw [createOrUpdateActivity_ok db today ts (progPayload s) rfl, hopts,
    scheduledOf_default today s h1 h2]

/-- Witness for C1 (amended): id 5 on day 100 schedules day 105; id 20
schedules nothing. -/
theorem schedule_by_code_table_witness :
    emptyDB.reprogramOptions = defaultReprogramOptions ∧
    (1 : Int) ≤ 5 ∧ (5 : Int) ≤ 20 ∧
    (createOrUpdateActivity emptyDB 100 0 (progPayload 5)).2
        = .ok ⟨emptyDB.nextActivityId, (codeOffsets 5).map (fun d => 100 + d)⟩ ∧
    (createOrUpdateActivity emptyDB 100 0 (progPayload 20)).2
        = .ok ⟨emptyDB.nextActivityId, (codeOffsets 20).map (fun d => 100 + d)⟩ :=
  ⟨rfl, by decide, by decide,
   schedule_by_code_table emptyDB 100 0 5 rfl (by decide) (by decide),
   schedule_by_code_table emptyDB 100 0 20 rfl (by decide) (by decide)⟩

/-! ### C2 -/

/-- Counterexample to C2: with both `programare_id = 1` (1 day) and the
explicit date `2030-01-01` supplied, the stored date is today + 1, not the
parsed explicit date (epoch day 21915). -/
theorem explicit_date_override_counterexample :
    parseIsoDate "2030-01-01" = some 21915 ∧
    (createOrUpdateActivity emptyDB 0 100 payC2).2 = .ok ⟨1, some 1⟩ ∧
    (some (1 : Int) ≠ some (21915 : Int)) := by decide

/-- C2 (amended): when both an explicit `scheduled_date` and a reprogram
option are supplied, the option's table offset wins for ids 1–19 (the
explicit date is ignored); the explicit date is used only when the option
yields no offset (id 20, "Nu programa"). -/
theorem explicit_date_only_fallback (db : DB) (today ts : Int) (s : Int)
    (sd : String) (hopts : db.reprogramOptions = defaultReprogramOptions)
    (h1 : 1 ≤ s) (h2 : s ≤ 19) (hsd : sd ≠ "") :
    (createOrUpdateActivity db today ts
        { progPayload s with scheduled_date := some sd }).2
      = .ok ⟨db.nextActivityId, (codeOffsets s).map (fun d => today + d)⟩ ∧
    (createOrUpdateActivity db today ts
        { progPayload 20 with scheduled_date := some sd }).2
      = .ok ⟨db.nextActivityId, parseIsoDate sd⟩ := by
  constructor
  · rw [createOrUpdateActivity_ok db today ts
        { progPayload s with scheduled_date := some sd } rfl, hopts,
      scheduledOf_default_withDate today s sd h1 h2]
  · rw [createOrUpdateActivity_ok db today ts
        { progPayload 20 with scheduled_date := some sd } rfl, hopts,
      scheduledOf_default_id20 today sd hsd]

/-- Witness for C2 (amended): id 3 with explicit date `2030-01-01` stores
today + 3; id 20 with the same explicit date stores the parsed date. -/
theorem explicit_date_only_fallback_witness :
    emptyDB.reprogramOptions = defaultReprogramOptions ∧
    (1 : Int) ≤ 3 ∧ (3 : Int) ≤ 19 ∧ "2030-01-01" ≠ "" ∧
    ((createOrUpdateActivity emptyDB 0 100
        { progPayload 3 with scheduled_date := some "2030-01-01" }).2
      = .ok ⟨emptyDB.nextActivityId,
          (codeOffsets 3).map (fun d => (0 : Int) + d)⟩ ∧
     (createOrUpdateActivity emptyDB 0 100
        { progPayload 20 with scheduled_date := some "2030-01-01" }).2
      = .ok ⟨emptyDB.nextActivityId, parseIsoDate "2030-01-01"⟩) :=
  ⟨rfl, by decide, by decide, by decide,
   explicit_date_only_fallback emptyDB 0 100 3 "2030-01-01" rfl
     (by decide) (by decide) (by decide)⟩

/-! ### C7 -/

/-- Counterexample to C7: creating the same payload (same firm, note, and
day) twice on an empty database leaves two rows with identical natural key,
not one updated row. -/
theorem upsert_counterexample :
    dbC7b.activities.map (fun a => (a.cui, a.comment, a.scheduledDate))
        = [("X", "hello", none), ("X", "hello", none)] ∧
    dbC7b.activities.length = 2 := by decide

/-- C7 (amended): activity creation always inserts a new row — both
`create_or_update_activity` (main.py) and `create_activity_for_firm`
(activities.py) append one row and leave existing rows untouched; there is
no upsert by (company, note, day). -/
theorem create_always_inserts (db : DB) (today ts : Int)
    (p : ActivityPayload) (cui : String) (comment : Option String)
    (score : Option Int)
    (h1 : sqlTrim (p.firm_id.getD "") ≠ "")
    (h2 : sqlTrim (p.comment.getD "") ≠ "") :
    (createOrUpdateActivity db today ts p).1.activities.length
        = db.activities.length + 1 ∧
    (createOrUpdateActivity db today ts p).1.activities.take
        db.activities.length = db.activities ∧
    (routerCreateActivity db ts cui comment score).1.activities.length
        = db.activities.length + 1 ∧
    (routerCreateActivity db ts cui comment score).1.activities.take
        db.activities.length = db.activities := by
  have hcond : (sqlTrim (p.firm_id.getD "") == ""
      || sqlTrim (p.comment.getD "") == "") = false := by
    simp only [Bool.or_eq_false_iff, beq_eq_false_iff_ne, ne_eq]
    exact ⟨h1, h2⟩
  obtain ⟨row, hrow⟩ := createOrUpdateActivity_appends db today ts p hcond
  refine ⟨?_, ?_, ?_, ?_⟩
  · rw [hrow]; simp
  · rw [hrow]; exact List.take_left _ _
  · simp [routerCreateActivity]
  · show (db.activities ++ [_]).take db.activities.length = db.activities
    exact List.take_left _ _

/-- Witness for C7 (amended): the concrete payload `payC7` on `emptyDB`. -/
theorem create_always_inserts_witness :
    sqlTrim (payC7.firm_id.getD "") ≠ "" ∧
    sqlTrim (payC7.comment.getD "") ≠ "" ∧
    ((createOrUpdateActivity emptyDB 0 100 payC7).1.activities.length
        = emptyDB.activities.length + 1 ∧
     (createOrUpdateActivity emptyDB 0 100 payC7).1.activities.take
        emptyDB.activities.length = emptyDB.activities ∧
     (routerCreateActivity emptyDB 100 "X" (some "hello")
        none).1.activities.length = emptyDB.activities.length + 1 ∧
     (routerCreateActivity emptyDB 100 "X" (some "hello")
        none).1.activities.take emptyDB.activities.length
        = emptyDB.activities) :=
  ⟨by decide, by decide,
   (create_always_inserts emptyDB 0 100 payC7 "X" (some "hello") none
     (by decide) (by decide))⟩

/-! ### C10 -/

/-- C10: after `mark_suggestions_used(cuis)` with a nonempty list, the
triggered `rebuild_top20` leaves every `suggested_top` row with
`used = false`; a marked firm that has no activity rows and is still in the
recomputed top reappears as an unused suggestion — marking used does not
persist across the rebuild. -/
theorem markSuggestionsUsed_resets_used (db : DB) (cuis : List String)
    (h : cuis ≠ []) :
    (∀ r ∈ (markSuggestionsUsed db cuis).suggestedTop, r.used = false) ∧
    (∀ c ∈ cuis, hasActivity db.activities c = false →
      c ∈ (computeTop db.firms db.licente db.activities 20).map
        (fun r => r.cui) →
      ∃ r ∈ (markSuggestionsUsed db cuis).suggestedTop,
        r.cui = c ∧ r.used = false) := by
  have hne : cuis.isEmpty = false := by
    cases cuis with
    | nil => exact absurd rfl h
    | cons a t => rfl
  have hst : (markSuggestionsUsed db cuis).suggestedTop
      = computeTop db.firms db.licente db.activities 20 := by
    simp only [markSuggestionsUsed, hne, Bool.false_eq_true, if_false]
    rfl
  constructor
  · intro r hr
    rw [hst] at hr
    exact (mem_computeTop _ _ _ _ hr).1
  · intro c hc hact hmem
    rw [hst]
    obtain ⟨r, hr, hrc⟩ := List.mem_map.mp hmem
    exact ⟨r, hr, hrc, (mem_computeTop _ _ _ _ hr).1⟩

/-- Witness for C10: marking firm "A" used in `dbT` (it has no activities
and tops the recomputed list) leaves it present and unused. -/
theorem markSuggestionsUsed_resets_used_witness :
    (["A"] : List String) ≠ [] ∧
    ((∀ r ∈ (markSuggestionsUsed dbT ["A"]).suggestedTop, r.used = false) ∧
     (∀ c ∈ (["A"] : List String),
        hasActivity dbT.activities c = false →
        c ∈ (computeTop dbT.firms dbT.licente dbT.activities 20).map
          (fun r => r.cui) →
        ∃ r ∈ (markSuggestionsUsed dbT ["A"]).suggestedTop,
          r.cui = c ∧ r.used = false)) :=
  ⟨by decide, markSuggestionsUsed_resets_used dbT ["A"] (by decide)⟩

/-! ### C9 -/

/-- Counterexample to C9: `api_agenda` does not reject a missing `day` (it
defaults to today), and `create_or_update_activity` does not reject an
unparseable `scheduled_date` (it stores the activity with no date). -/
theorem date_validation_counterexample :
    apiAgendaTarget none 42 = .ok 42 ∧
    parseIsoDate "notadate" = none ∧
    (createOrUpdateActivity emptyDB 0 100 payC9).2 = .ok ⟨1, none⟩ := by
  decide

/-- C9 (amended): only `get_agenda` (agenda.py) rejects an unparseable date
with an error naming the expected format; `api_agenda` (main.py) defaults a
missing day to today and rejects an unparseable day with the formatless
message "invalid day"; `create_or_update_activity` silently treats an
unparseable `scheduled_date` as absent. -/
theorem date_validation_by_endpoint :
    (∀ s, parseIsoDate s = none →
      getAgendaDate s = .err ⟨400, "data must be ISO date YYYY-MM-DD"⟩) ∧
    (∀ today : Int, apiAgendaTarget none today = .ok today) ∧
    (∀ s, ∀ today : Int, parseIsoDate s = none →
      apiAgendaTarget (some s) today = .err ⟨400, "invalid day"⟩) ∧
    (∀ (opts : List ReprogramOption) (today : Int) (p : ActivityPayload)
       (sd : String), p.scheduled_date = some sd → parseIsoDate sd = none →
      pyTruthyInt p.programare_days = none →
      pyTruthyInt p.programare_id = none →
      scheduledOf opts today p = none) := by
  refine ⟨?_, fun _ => rfl, ?_, ?_⟩
  · intro s hs
    unfold getAgendaDate
    rw [hs]
  · intro s today hs
    simp only [apiAgendaTarget]
    rw [hs]
  · intro opts today p sd hsd hparse hdays hid
    simp only [scheduledOf, progLabelDays, hdays, hid, hsd]
    cases heq : pyTruthyStr (some sd) with
    | none => simp [heq]
    | some s' =>
      have hseq : s' = sd := by
        unfold pyTruthyStr at heq
        split at heq
        · exact absurd heq (by simp)
        · exact (Option.some.injEq _ _ ▸ heq).symm
      simp [heq, hseq, hparse]

/-! ### C6 -/

theorem mem_agendaScheduled {a : ActivityRow} {acts : List ActivityRow}
    {day : Int} {cuiq : Option String}
    (h : a ∈ agendaScheduled acts day cuiq) :
    a ∈ acts ∧ a.scheduledDate = some day ∧ a.completed = false ∧
      cuiMatch cuiq a = true := by
  have h1 := List.take_subset _ _ h
  have h2 := List.mem_mergeSort.mp h1
  obtain ⟨ha, hc⟩ := List.mem_filter.mp h2
  simp only [schedCond, Bool.and_eq_true, beq_iff_eq, Bool.not_eq_true'] at hc
  exact ⟨ha, hc.1.1, hc.1.2, hc.2⟩

theorem mem_agendaOverdue {a : ActivityRow} {acts : List ActivityRow}
    {day : Int} {cuiq : Option String} (h : a ∈ agendaOverdue acts day cuiq) :
    a ∈ acts ∧ (∃ s, a.scheduledDate = some s ∧ s < day) ∧
      a.completed = false ∧ cuiMatch cuiq a = true := by
  have h1 := List.take_subset _ _ h
  have h2 := List.mem_mergeSort.mp h1
  obtain ⟨ha, hc⟩ := List.mem_filter.mp h2
  simp only [overdueCond, Bool.and_eq_true, Bool.not_eq_true'] at hc
  refine ⟨ha, ?_, hc.1.2, hc.2⟩
  rcases hsd : a.scheduledDate with _ | s
  · rw [hsd] at hc
    simp at hc
  · rw [hsd] at hc
    exact ⟨s, rfl, by simpa using hc.1.1⟩

theorem mem_agendaNearby {a : ActivityRow} {acts : List ActivityRow}
    {day : Int} {cuiq : Option String} (h : a ∈ agendaNearby acts day cuiq) :
    a ∈ acts ∧ (∃ s, a.scheduledDate = some s ∧ day < s ∧ s ≤ day + 7) ∧
      a.completed = false ∧ cuiMatch cuiq a = true := by
  have h1 := List.take_subset _ _ h
  have h2 := List.mem_mergeSort.mp h1
  obtain ⟨ha, hc⟩ := List.mem_filter.mp h2
  simp only [nearbyCond, Bool.and_eq_true, Bool.not_eq_true'] at hc
  refine ⟨ha, ?_, hc.1.2, hc.2⟩
  rcases hsd : a.scheduledDate with _ | s
  · rw [hsd] at hc
    simp at hc
  · rw [hsd] at hc
    have := hc.1.1
    simp only [decide_eq_true_eq] at this
    exact ⟨s, rfl, this.1, this.2⟩

theorem agendaScheduled_complete {acts : List ActivityRow} {day : Int}
    {cuiq : Option String}
    (hS : (acts.filter (schedCond day cuiq)).length ≤ 500)
    {a : ActivityRow} (ha : a ∈ acts) (h1 : a.scheduledDate = some day)
    (h2 : a.completed = false) (h3 : cuiMatch cuiq a = true) :
    a ∈ agendaScheduled acts day cuiq := by
  unfold agendaScheduled
  rw [List.take_of_length_le (by rw [List.length_mergeSort]; exact hS)]
  exact List.mem_mergeSort.mpr
    (List.mem_filter.mpr ⟨ha, by simp [schedCond, h1, h2, h3]⟩)

theorem agendaOverdue_complete {acts : List ActivityRow} {day : Int}
    {cuiq : Option String}
    (hO : (acts.filter (overdueCond day cuiq)).length ≤ 200)
    {a : ActivityRow} {s : Int} (ha : a ∈ acts)
    (h1 : a.scheduledDate = some s) (hlt : s < day)
    (h2 : a.completed = false) (h3 : cuiMatch cuiq a = true) :
    a ∈ agendaOverdue acts day cuiq := by
  unfold agendaOverdue
  rw [List.take_of_length_le (by rw [List.length_mergeSort]; exact hO)]
  exact List.mem_mergeSort.mpr
    (List.mem_filter.mpr ⟨ha, by simp [overdueCond, h1, h2, h3, hlt]⟩)

theorem agendaNearby_complete {acts : List ActivityRow} {day : Int}
    {cuiq : Option String}
    (hN : (acts.filter (nearbyCond day cuiq)).length ≤ 500)
    {a : ActivityRow} {s : Int} (ha : a ∈ acts)
    (h1 : a.scheduledDate = some s) (hgt : day < s) (hle : s ≤ day + 7)
    (h2 : a.completed = false) (h3 : cuiMatch cuiq a = true) :
    a ∈ agendaNearby acts day cuiq := by
  unfold agendaNearby
  rw [List.take_of_length_le (by rw [List.length_mergeSort]; exact hN)]
  exact List.mem_mergeSort.mpr
    (List.mem_filter.mpr ⟨ha, by simp [nearbyCond, h1, h2, h3, hgt, hle]⟩)

/-- C6 (amended): the three agenda lists contain only non-completed
activities inside their respective date windows and are pairwise disjoint,
unconditionally; an activity scheduled beyond seven days in the future
appears in none of them; and provided each category holds no more rows than
its SQL `LIMIT` (500 scheduled, 200 overdue, 500 nearby), every
non-completed activity with a scheduled date within `day + 7` appears in
(exactly, by the disjointness above) one of them. -/
theorem agenda_partition (acts : List ActivityRow) (day : Int)
    (cuiq : Option String) :
    (∀ a ∈ agendaScheduled acts day cuiq,
        a.completed = false ∧ a.scheduledDate = some day) ∧
    (∀ a ∈ agendaOverdue acts day cuiq,
        a.completed = false ∧ ∃ s, a.scheduledDate = some s ∧ s < day) ∧
    (∀ a ∈ agendaNearby acts day cuiq,
        a.completed = false ∧
          ∃ s, a.scheduledDate = some s ∧ day < s ∧ s ≤ day + 7) ∧
    (∀ a ∈ agendaScheduled acts day cuiq,
        a ∉ agendaOverdue acts day cuiq ∧ a ∉ agendaNearby acts day cuiq) ∧
    (∀ a ∈ agendaOverdue acts day cuiq, a ∉ agendaNearby acts day cuiq) ∧
    (∀ a : ActivityRow, ∀ s : Int, a.scheduledDate = some s → day + 7 < s →
        a ∉ agendaScheduled acts day cuiq ∧
          a ∉ agendaOverdue acts day cuiq ∧
          a ∉ agendaNearby acts day cuiq) ∧
    ((acts.filter (schedCond day cuiq)).length ≤ 500 →
     (acts.filter (overdueCond day cuiq)).length ≤ 200 →
     (acts.filter (nearbyCond day cuiq)).length ≤ 500 →
      ∀ a ∈ acts, a.completed = false → cuiMatch cuiq a = true →
        ∀ s, a.scheduledDate = some s → s ≤ day + 7 →
          a ∈ agendaScheduled acts day cuiq ∨
            a ∈ agendaOverdue acts day cuiq ∨
            a ∈ agendaNearby acts day cuiq) := by
  refine ⟨?_, ?_, ?_, ?_, ?_, ?_, ?_⟩
  · intro a ha
    obtain ⟨-, h1, h2, -⟩ := mem_agendaScheduled ha
    exact ⟨h2, h1⟩
  · intro a ha
    obtain ⟨-, h1, h2, -⟩ := mem_agendaOverdue ha
    exact ⟨h2, h1⟩
  · intro a ha
    obtain ⟨-, h1, h2, -⟩ := mem_agendaNearby ha
    exact ⟨h2, h1⟩
  · intro a ha
    obtain ⟨-, hsd, -, -⟩ := mem_agendaScheduled ha
    constructor
    · intro hb
      obtain ⟨-, ⟨s, hs, hlt⟩, -, -⟩ := mem_agendaOverdue hb
      rw [hsd] at hs
      injection hs with hs
      omega
    · intro hb
      obtain ⟨-, ⟨s, hs, hgt, -⟩, -, -⟩ := mem_agendaNearby hb
      rw [hsd] at hs
      injection hs with hs
      omega
  · intro a ha hb
    obtain ⟨-, ⟨s, hs, hlt⟩, -, -⟩ := mem_agendaOverdue ha
    obtain ⟨-, ⟨s', hs', hgt, -⟩, -, -⟩ := mem_agendaNearby hb
    rw [hs] at hs'
    injection hs' with hs'
    omega
  · intro a s hsd hgt
    refine ⟨?_, ?_, ?_⟩
    · intro hmem
      obtain ⟨-, h1, -, -⟩ := mem_agendaScheduled hmem
      rw [hsd] at h1
      injection h1 with h1
      omega
    · intro hmem
      obtain ⟨-, ⟨s', hs', hlt⟩, -, -⟩ := mem_agendaOverdue hmem
      rw [hsd] at hs'
      injection hs' with hs'
      omega
    · intro hmem
      obtain ⟨-, ⟨s', hs', -, hle⟩, -, -⟩ := mem_agendaNearby hmem
      rw [hsd] at hs'
      injection hs' with hs'
      omega
  · intro hS hO hN a ha hcomp hcui s hsd hle
    rcases lt_trichotomy s day with hlt | heq | hgt
    · exact Or.inr (Or.inl (agendaOverdue_complete hO ha hsd hlt hcomp hcui))
    · exact Or.inl (agendaScheduled_complete hS ha
        (by rw [hsd, heq]) hcomp hcui)
    · exact Or.inr (Or.inr
        (agendaNearby_complete hN ha hsd hgt hle hcomp hcui))

/-- Witness for C6 (amended): the four-activity dataset `actsW` around
day 10, whose category counts satisfy the LIMIT caps, together with the
theorem's full conclusion there — including the exhaustiveness conjunct
discharged at those concrete counts. -/
theorem agenda_partition_witness :
    (actsW.filter (schedCond 10 none)).length ≤ 500 ∧
    (actsW.filter (overdueCond 10 none)).length ≤ 200 ∧
    (actsW.filter (nearbyCond 10 none)).length ≤ 500 ∧
    ((∀ a ∈ agendaScheduled actsW 10 none,
        a.completed = false ∧ a.scheduledDate = some 10) ∧
     (∀ a ∈ agendaOverdue actsW 10 none,
        a.completed = false ∧ ∃ s, a.scheduledDate = some s ∧ s < 10) ∧
     (∀ a ∈ agendaNearby actsW 10 none,
        a.completed = false ∧
          ∃ s, a.scheduledDate = some s ∧ 10 < s ∧ s ≤ 10 + 7) ∧
     (∀ a ∈ agendaScheduled actsW 10 none,
        a ∉ agendaOverdue actsW 10 none ∧ a ∉ agendaNearby actsW 10 none) ∧
     (∀ a ∈ agendaOverdue actsW 10 none, a ∉ agendaNearby actsW 10 none) ∧
     (∀ a : ActivityRow, ∀ s : Int, a.scheduledDate = some s → 10 + 7 < s →
        a ∉ agendaScheduled actsW 10 none ∧
          a ∉ agendaOverdue actsW 10 none ∧
          a ∉ agendaNearby actsW 10 none)) ∧
    (∀ a ∈ actsW, a.completed = false → cuiMatch none a = true →
        ∀ s, a.scheduledDate = some s → s ≤ 10 + 7 →
          a ∈ agendaScheduled actsW 10 none ∨
            a ∈ agendaOverdue actsW 10 none ∨
            a ∈ agendaNearby actsW 10 none) :=
  ⟨by decide, by decide, by decide,
   ⟨(agenda_partition actsW 10 none).1, (agenda_partition actsW 10 none).2.1,
    (agenda_partition actsW 10 none).2.2.1,
    (agenda_partition actsW 10 none).2.2.2.1,
    (agenda_partition actsW 10 none).2.2.2.2.1,
    (agenda_partition actsW 10 none).2.2.2.2.2.1⟩,
   (agenda_partition actsW 10 none).2.2.2.2.2.2
     (by decide) (by decide) (by decide)⟩

set_option maxRecDepth 100000 in
/-- Counterexample to C6 as frozen: with 201 distinct overdue activities,
the overdue query's `LIMIT 200` drops one of them, so a non-completed
activity with a scheduled date before the target day appears in none of the
three lists. -/
theorem agenda_partition_counterexample :
    ∃ a ∈ overdueActs, a.completed = false ∧ a.scheduledDate = some 9 ∧
      (9 : Int) < 10 ∧ a ∉ agendaScheduled overdueActs 10 none ∧
      a ∉ agendaOverdue overdueActs 10 none ∧
      a ∉ agendaNearby overdueActs 10 none := by
  have hfS : overdueActs.filter (schedCond 10 none) = [] := by decide
  have hfN : overdueActs.filter (nearbyCond 10 none) = [] := by decide
  have hfOlen : (overdueActs.filter (overdueCond 10 none)).length = 201 := by
    decide
  have hnd : (overdueActs.filter (overdueCond 10 none)).Nodup := by decide
  have hall : ∀ x ∈ overdueActs,
      x.completed = false ∧ x.scheduledDate = some 9 := by decide
  have hOlen : (agendaOverdue overdueActs 10 none).length ≤ 200 := by
    unfold agendaOverdue
    rw [List.length_take]
    exact min_le_left _ _
  have hmiss : ∃ a ∈ overdueActs.filter (overdueCond 10 none),
      a ∉ agendaOverdue overdueActs 10 none := by
    by_contra hc
    push_neg at hc
    have hsub : overdueActs.filter (overdueCond 10 none)
        ⊆ agendaOverdue overdueActs 10 none := fun x hx => hc x hx
    have := (List.subperm_of_subset hnd hsub).length_le
    omega
  obtain ⟨a, haf, hnotO⟩ := hmiss
  have ha := (List.mem_filter.mp haf).1
  obtain ⟨hcomp, hsd⟩ := hall a ha
  refine ⟨a, ha, hcomp, hsd, by omega, ?_, hnotO, ?_⟩
  · intro hmem
    unfold agendaScheduled at hmem
    rw [hfS] at hmem
    simp at hmem
  · intro hmem
    unfold agendaNearby at hmem
    rw [hfN] at hmem
    simp at hmem

/-- Witness for C9 (amended): the unparseable string "notadate" and the
payload `payC9`. -/
theorem date_validation_by_endpoint_witness :
    parseIsoDate "notadate" = none ∧
    getAgendaDate "notadate"
        = .err ⟨400, "data must be ISO date YYYY-MM-DD"⟩ ∧
    apiAgendaTarget none 7 = .ok 7 ∧
    apiAgendaTarget (some "notadate") 7 = .err ⟨400, "invalid day"⟩ ∧
    scheduledOf emptyDB.reprogramOptions 0 payC9 = none :=
  ⟨by decide,
   date_validation_by_endpoint.1 "notadate" (by decide),
   date_validation_by_endpoint.2.1 7,
   date_validation_by_endpoint.2.2.1 "notadate" 7 (by decide),
   date_validation_by_endpoint.2.2.2 emptyDB.reprogramOptions 0 payC9
     "notadate" rfl (by decide) rfl rfl⟩

end CRM
